import Mathlib

/-!
Shallow embedding of the FechaAI dashboard, src/FechaAI.py: the
configuration loading at lines 39 to 49, the load_df helper at lines 52
to 58, the sidebar filter fallback at lines 91 to 94, the WHERE clause of
the main query at lines 116 to 119, and the pandas aggregations deriving
the KPI metrics at lines 126 to 209.  Numeric columns are rationals,
nullable SQL columns are Option, and env lookups are partial maps.
-/

namespace FechaAI

/-- A row of the joined fact table produced by base_sql, lines 97 to 123:
one row per quote line, with order and invoice numbers null when the left
joins find no match. -/
structure Row where
  nro_orcamento : Option String
  produto : String
  val_bruto : ℚ
  custo : ℚ
  nro_pedido : Option String
  nro_nota : Option String
  ano : Int
  mes : Int
  estado : Option String
  filial : String
deriving DecidableEq

/-- An environment, the source read by os.getenv. -/
def Env : Type := String → Option String

/-- The empty environment: every key is absent. -/
def emptyEnv : Env := fun _ => none

/-- Python os.getenv with a default value, as on lines 39 and 40. -/
def getenvD (env : Env) (k d : String) : String := (env k).getD d

/-- Interpolation of an os.getenv result by str.format: Python renders an
absent key, which getenv returns as None, as the text None. -/
def pyStr : Option String → String
  | some s => s
  | none => "None"

/-- Line 39: SCHEMA falls back to csv when PG_SCHEMA is absent. -/
def SCHEMA (env : Env) : String := getenvD env "PG_SCHEMA" "csv"

/-- Line 40: the ORC_TABLE default is the pre-quoted identifier with a
cedilla, written with surrounding double quote characters in the source. -/
def ORC_TABLE (env : Env) : String := getenvD env "PG_TBL_ORC" "\"orçamentos_anon\""

/-- Lines 42 to 48: DB_URL is built by str.format from five getenv calls
that have no defaults; an absent key interpolates the text None. -/
def DB_URL (env : Env) : String :=
  "postgresql+psycopg2://" ++ pyStr (env "PG_USER") ++ ":" ++ pyStr (env "PG_PWD")
    ++ "@" ++ pyStr (env "PG_HOST") ++ ":" ++ pyStr (env "PG_PORT")
    ++ "/" ++ pyStr (env "PG_DB")

/-- The five required connection keys, all configuration except the schema
and the table name. -/
def requiredKeys : List String := ["PG_HOST", "PG_PORT", "PG_DB", "PG_USER", "PG_PWD"]

/-- The required keys absent from an environment. -/
def missingRequired (env : Env) : List String :=
  requiredKeys.filter (fun k => (env k).isNone)

/-- A decimal digit character. -/
def isDigitCh (c : Char) : Bool := decide (48 ≤ c.toNat) && decide (c.toNat ≤ 57)

/-- A non-empty run of decimal digits. -/
def digitsOnly (cs : List Char) : Bool := !cs.isEmpty && cs.all isDigitCh

/-- Whether Python int() accepts the string: an optional sign followed by
decimal digits (the forms relevant to a URL port segment; Python also
strips surrounding whitespace and allows digit-group underscores, which
cannot occur here).  The text None is not a valid literal. -/
def pyIntOk (s : String) : Bool :=
  match s.data with
  | [] => false
  | c :: cs => if (c == '+') || (c == '-') then digitsOnly cs else digitsOnly (c :: cs)

/-- Startup as lines 39 to 49 perform it.  There is no validation branch
that enumerates missing keys: DB_URL is formatted with the text None for
each absent key, then create_engine at line 49 eagerly parses the URL,
and the make_url parser of SQLAlchemy applies int() to the non-empty port
segment.  A port segment that is not an integer literal, such as the text
None left by a missing PG_PORT, therefore raises ValueError at line 49
(Python quotes the offending literal in the message); every other missing
key silently becomes the text None inside the URL and startup proceeds. -/
def startup (env : Env) : Except String String :=
  if pyIntOk (pyStr (env "PG_PORT")) then Except.ok (DB_URL env)
  else Except.error ("ValueError: invalid literal for int() with base 10: "
    ++ pyStr (env "PG_PORT"))

/-- A row of the dimension query at lines 68 to 72, one estado and filial
pair per distinct combination. -/
structure DimRow where
  estado : Option String
  filial : Option String
deriving DecidableEq

/-- First-occurrence deduplication with an accumulator of already seen
values: pandas Series.unique keeps the first occurrence of each value. -/
def uniqueAux : List String → List String → List String
  | [], _ => []
  | a :: l, seen => if a ∈ seen then uniqueAux l seen else a :: uniqueAux l (a :: seen)

/-- pandas Series.unique on a non-null column. -/
def uniqueList (l : List String) : List String := uniqueAux l []

/-- dropna followed by unique on a nullable column, as on lines 75, 77,
92 and 94. -/
def uniqueVals (l : List (Option String)) : List String := uniqueList (l.filterMap id)

/-- Lines 91 and 92: an empty estados selection falls back to the full
distinct estado list of the dimension query. -/
def effectiveEstados (sel : List String) (dim : List DimRow) : List String :=
  if sel.isEmpty then uniqueVals (dim.map DimRow.estado) else sel

/-- Lines 93 and 94: the same fallback for filiais. -/
def effectiveFiliais (sel : List String) (dim : List DimRow) : List String :=
  if sel.isEmpty then uniqueVals (dim.map DimRow.filial) else sel

/-- The named parameters bound into base_sql. -/
structure Params where
  ano_ini : Int
  ano_fim : Int
  meses : List Int
  estados : List String
  filiais : List String
deriving DecidableEq

/-- Lines 121 to 123: the parameter dictionary of the main query; meses is
bound exactly as selected, with no fallback, while estados and filiais go
through the empty-selection fallback first. -/
def mkParams (ano_ini ano_fim : Int) (mesSel : List Int)
    (selE selF : List String) (dim : List DimRow) : Params :=
  ⟨ano_ini, ano_fim, mesSel, effectiveEstados selE dim, effectiveFiliais selF dim⟩

/-- The WHERE clause of base_sql, lines 116 to 119, evaluated on a joined
row; a SQL equality against a NULL estado is not true, so such a row is
excluded. -/
def whereClause (p : Params) (r : Row) : Bool :=
  (decide (p.ano_ini ≤ r.ano) && decide (r.ano ≤ p.ano_fim))
    && p.meses.contains r.mes
    && (match r.estado with
        | some e => p.estados.contains e
        | none => false)
    && p.filiais.contains r.filial

/-- The main query restricted to its filtering behaviour over the joined
rows. -/
def mainQuery (joined : List Row) (p : Params) : List Row :=
  joined.filter (whereClause p)

/-- pandas Series.nunique on a nullable column: nulls are dropped, then
distinct values are counted. -/
def nunique (col : List (Option String)) : Nat := (uniqueVals col).length

/-- Line 139: total revenue. -/
def receita_total (df : List Row) : ℚ := (df.map Row.val_bruto).sum

/-- Line 140: total cost. -/
def custo_total (df : List Row) : ℚ := (df.map Row.custo).sum

/-- Line 141: the conditional expression guarding zero revenue; Python
truthiness makes the condition receita_total being nonzero. -/
def rent_pct (df : List Row) : ℚ :=
  if receita_total df ≠ 0 then (receita_total df - custo_total df) / receita_total df * 100
  else 0

/-- Line 201: distinct quote numbers. -/
def qtd_orc (df : List Row) : Nat := nunique (df.map Row.nro_orcamento)

/-- Line 202: distinct order numbers. -/
def qtd_ped (df : List Row) : Nat := nunique (df.map Row.nro_pedido)

/-- Line 203: distinct invoice numbers. -/
def qtd_nf (df : List Row) : Nat := nunique (df.map Row.nro_nota)

/-- Line 142: ticket_medio divides by the distinct quote count with no
zero guard; on an empty result set the pandas sum is the integer zero and
Python raises ZeroDivisionError. -/
def ticket_medio (df : List Row) : Except String ℚ :=
  if qtd_orc df = 0 then Except.error "ZeroDivisionError"
  else Except.ok (receita_total df / qtd_orc df)

/-- Line 126: rentabilidade_pct, with the zero divisor first replaced by
the pandas missing value, so a zero val_bruto row gets a missing ratio. -/
def rentabilidade_pct (r : Row) : Option ℚ :=
  if r.val_bruto = 0 then none else some ((r.val_bruto - r.custo) / r.val_bruto)

/-- pandas mean with skipna: missing entries are dropped before averaging,
and the mean of an all-missing group is itself missing. -/
def meanRentab (rows : List Row) : Option ℚ :=
  let vs := rows.filterMap rentabilidade_pct
  if vs.isEmpty then none else some (vs.sum / vs.length)

/-- The rows of one product group. -/
def prodGroup (df : List Row) (p : String) : List Row :=
  df.filter (fun r => r.produto == p)

/-- Lexicographic comparison of character lists by code point, the order
Python uses when pandas sorts string keys. -/
def lexLe : List Char → List Char → Bool
  | [], _ => true
  | _ :: _, [] => false
  | a :: as, b :: bs =>
    if a.toNat < b.toNat then true
    else if b.toNat < a.toNat then false
    else lexLe as bs

/-- The Python string order on the underlying character data. -/
def strLe (s t : String) : Prop := lexLe s.data t.data = true

instance strLe.dec : DecidableRel strLe := fun s t =>
  inferInstanceAs (Decidable (lexLe s.data t.data = true))

/-- Line 177: pandas groupby sorts the group keys ascending, its default. -/
def groupKeys (df : List Row) : List String :=
  List.insertionSort strLe (df.map Row.produto).dedup

/-- One row of the grouped product table: a product name and its mean
row-level profitability. -/
structure ProdRent where
  produto : String
  rentab : Option ℚ
deriving DecidableEq

/-- Lines 177 and 178: the grouped table, one row per product in group-key
order, holding the skipna mean of rentabilidade_pct. -/
def grouped (df : List Row) : List ProdRent :=
  (groupKeys df).map (fun p => ⟨p, meanRentab (prodGroup df p)⟩)

/-- The descending order used by sort_values on the rentab column, with
missing values placed last as na_position last does. -/
def rentGE (a b : Option ℚ) : Prop :=
  match a, b with
  | some x, some y => y ≤ x
  | some _, none => True
  | none, some _ => False
  | none, none => True

instance rentGE.dec : DecidableRel rentGE := fun a b =>
  match a, b with
  | some x, some y => inferInstanceAs (Decidable (y ≤ x))
  | some _, none => inferInstanceAs (Decidable True)
  | none, some _ => inferInstanceAs (Decidable False)
  | none, none => inferInstanceAs (Decidable True)

/-- The sort order of line 179 on grouped rows. -/
def rentDesc (a b : ProdRent) : Prop := rentGE a.rentab b.rentab

instance rentDesc.dec : DecidableRel rentDesc := fun a b => rentGE.dec a.rentab b.rentab

/-- Line 179: sort the grouped table by rentab descending and keep the
first ten rows.  sort_values runs its default kind, the numpy partition
sort, which is not stable, so the program fixes no tie order in general;
the contract it does give is IsTopProd below.  This executable function
realises that contract with an insertion sort and coincides with the
observed pandas output on grouped tables of at most the partition-sort
threshold of sixteen rows, where numpy runs a stable insertion pass; it
is used only to evaluate such small concrete samples. -/
def top_prod (df : List Row) : List ProdRent :=
  (List.insertionSort rentDesc (grouped df)).take 10

/-- The guarantee sort_values gives for any sort kind: the output is a
permutation of the input that is ordered descending on rentab with
missing values last.  Tie order is left unspecified, because the default
kind is unstable. -/
def IsSortValuesDesc (inp out : List ProdRent) : Prop :=
  out.Perm inp ∧ out.Pairwise rentDesc

/-- The contract of lines 177 to 179: some admissible descending sort of
the grouped table, truncated to its first ten rows. -/
def IsTopProd (df : List Row) (out : List ProdRent) : Prop :=
  ∃ s : List ProdRent, IsSortValuesDesc (grouped df) s ∧ out = s.take 10

/-- The scalars and tables the dashboard and funnel tabs render. -/
structure Dashboard where
  receita : ℚ
  custo : ℚ
  rentab : ℚ
  ticket : ℚ
  topProdutos : List ProdRent
  orcamentos : Nat
  pedidos : Nat
  notas : Nat
deriving DecidableEq

/-- The outcome of executing the main query in the database. -/
inductive QueryOutcome where
  | ok (df : List Row)
  | programmingError (msg : String)
  | operationalError (msg : String)
deriving DecidableEq

/-- What one render cycle produces. -/
inductive RenderResult where
  | rendered (d : Dashboard)
  | stoppedWithError (msg : String)
  | uncaught (msg : String)
deriving DecidableEq

/-- One render cycle after the main query: load_df at lines 52 to 58
catches only ProgrammingError, showing the message through st.error and
halting through st.stop before any widget is produced; any other database
exception, such as a transient OperationalError, propagates uncaught; on
success the KPI block runs, where the unguarded ticket_medio division can
itself raise on an empty table. -/
def renderCycle (q : QueryOutcome) : RenderResult :=
  match q with
  | .programmingError e => .stoppedWithError ("Erro na consulta SQL: " ++ e)
  | .operationalError e => .uncaught e
  | .ok df =>
    match ticket_medio df with
    | .error e => .uncaught e
    | .ok t =>
      .rendered ⟨receita_total df, custo_total df, rent_pct df, t, top_prod df,
                 qtd_orc df, qtd_ped df, qtd_nf df⟩

/-! Sample data used by the witnesses and counterexamples. -/

/-- A sample fact row with the given product, gross value and cost. -/
def mkRow (p : String) (v c : ℚ) : Row :=
  ⟨some "q1", p, v, c, none, none, 2023, 1, some "SP", "F1"⟩

/-- Two tied products: product b appears first in the source rows. -/
def cexRowsC2 : List Row := [mkRow "b" 10 5, mkRow "a" 10 5]

/-- An environment holding every key except PG_PORT. -/
def envNoPort : Env := fun k => if k = "PG_PORT" then none else some "v"

/-- An environment missing only PG_HOST, with a numeric port. -/
def envNoHost : Env := fun k =>
  if k = "PG_HOST" then none else if k = "PG_PORT" then some "5432" else some "v"

/-- A sample dimension table with a null estado row. -/
def dim0 : List DimRow := [⟨some "SP", some "F1"⟩, ⟨none, some "F2"⟩, ⟨some "RJ", some "F1"⟩]

/-- A sample joined row whose customer estado is null. -/
def rowNullEstado : Row := ⟨some "q1", "p", 1, 1, none, none, 2023, 1, none, "F1"⟩

/-- A table whose only row has zero gross value and negative cost. -/
def dfZeroRev : List Row := [mkRow "a" 0 (-5)]

/-- A table with positive revenue. -/
def dfPos : List Row := [mkRow "a" 100 40]

/-- A row whose left joins found no order and no invoice. -/
def rowNoMatch : Row := ⟨some "q9", "p", 1, 1, none, none, 2023, 1, some "SP", "F1"⟩

/-- Two rows sharing one order number, one of them with no invoice. -/
def dfFunnel : List Row :=
  [⟨some "q1", "p", 1, 1, some "o1", some "n1", 2023, 1, some "SP", "F1"⟩,
   ⟨some "q2", "p", 1, 1, some "o1", none, 2023, 1, some "SP", "F1"⟩]

/-! Supporting lemmas about the order used by the product ranking. -/

theorem rentGE_total : ∀ a b : Option ℚ, rentGE a b ∨ rentGE b a
  | some x, some y => le_total y x
  | some _, none => Or.inl trivial
  | none, some _ => Or.inr trivial
  | none, none => Or.inl trivial

theorem rentGE_trans : ∀ a b c : Option ℚ, rentGE a b → rentGE b c → rentGE a c
  | some _, some _, some _, h1, h2 => le_trans h2 h1
  | some _, some _, none, _, _ => trivial
  | some _, none, some _, _, h2 => h2.elim
  | some _, none, none, _, _ => trivial
  | none, some _, _, h1, _ => h1.elim
  | none, none, some _, _, h2 => h2.elim
  | none, none, none, _, _ => trivial

instance : IsTotal ProdRent rentDesc := ⟨fun a b => rentGE_total a.rentab b.rentab⟩

instance : IsTrans ProdRent rentDesc :=
  ⟨fun a b c => rentGE_trans a.rentab b.rentab c.rentab⟩

/-- The grouped table of the tied two-product sample: groupby emits the
keys in sorted order, a before b, each with mean one half. -/
theorem grouped_cexRowsC2 :
    grouped cexRowsC2 = [⟨"a", some (1 / 2)⟩, ⟨"b", some (1 / 2)⟩] := by
  have hk : groupKeys cexRowsC2 = ["a", "b"] := by decide
  have hma : meanRentab (prodGroup cexRowsC2 "a") = some (1 / 2) := by
    norm_num [meanRentab, prodGroup, cexRowsC2, mkRow, rentabilidade_pct, List.filterMap]
  have hmb : meanRentab (prodGroup cexRowsC2 "b") = some (1 / 2) := by
    norm_num [meanRentab, prodGroup, cexRowsC2, mkRow, rentabilidade_pct, List.filterMap]
  rw [grouped, hk]
  simp [hma, hmb]

/-! Claim theorems. -/

/-- C1: for every fact row, rentabilidade_pct equals the ratio of gross
value minus cost to gross value when the gross value is nonzero, is a
missing value when the gross value is zero, and such a missing row leaves
the per-product mean profitability unchanged. -/
theorem C1_rentabilidade_missing_on_zero (r : Row) (df : List Row) (p : String) :
    (r.val_bruto ≠ 0 → rentabilidade_pct r = some ((r.val_bruto - r.custo) / r.val_bruto)) ∧
    (r.val_bruto = 0 → rentabilidade_pct r = none) ∧
    (r.val_bruto = 0 → meanRentab (prodGroup (r :: df) p) = meanRentab (prodGroup df p)) := by
  refine ⟨fun h => by simp [rentabilidade_pct, h], fun h => by simp [rentabilidade_pct, h],
    fun h => ?_⟩
  have hr : rentabilidade_pct r = none := by simp [rentabilidade_pct, h]
  by_cases hp : r.produto == p
  · simp [meanRentab, prodGroup, List.filter_cons, hp, hr]
  · simp [meanRentab, prodGroup, List.filter_cons, hp]

/-- C1 witness at concrete rows. -/
theorem C1_witness :
    rentabilidade_pct (mkRow "a" 10 4) = some ((10 - 4 : ℚ) / 10) ∧
    rentabilidade_pct (mkRow "a" 0 10) = none ∧
    meanRentab (prodGroup [mkRow "a" 0 10, mkRow "a" 10 4] "a")
      = meanRentab (prodGroup [mkRow "a" 10 4] "a") :=
  ⟨(C1_rentabilidade_missing_on_zero (mkRow "a" 10 4) [] "a").1 (by norm_num [mkRow]),
   (C1_rentabilidade_missing_on_zero (mkRow "a" 0 10) [] "a").2.1 rfl,
   (C1_rentabilidade_missing_on_zero (mkRow "a" 0 10) [mkRow "a" 10 4] "a").2.2 rfl⟩

/-- C2 counterexample: products a and b have the same mean profitability
and b appears first in the source rows, yet the ranking lists a before b,
so the tie order is not first-appearance order. -/
theorem C2_counterexample :
    meanRentab (prodGroup cexRowsC2 "a") = meanRentab (prodGroup cexRowsC2 "b") ∧
    uniqueList (cexRowsC2.map Row.produto) = ["b", "a"] ∧
    (top_prod cexRowsC2).map ProdRent.produto = ["a", "b"] := by
  refine ⟨?_, by decide, ?_⟩
  · norm_num [meanRentab, prodGroup, cexRowsC2, mkRow, rentabilidade_pct, List.filterMap]
  · rw [top_prod, grouped_cexRowsC2]
    norm_num [List.insertionSort, List.orderedInsert, rentDesc, rentGE]

/-- C2 amended: the ranking is ordered by mean profitability descending
with missing means last, but the sort is not stable, so the relative
order of tied products is unspecified rather than first-appearance order:
every admissible output of sort_values is some descending permutation of
the grouped table truncated to ten rows, the executable model is one such
output, and on the tied two-product sample both tie orders satisfy the
contract. -/
theorem C2_amended_sort_contract :
    (∀ (df : List Row) (out : List ProdRent), IsTopProd df out → out.Pairwise rentDesc) ∧
    (∀ df : List Row, IsTopProd df (top_prod df)) ∧
    IsTopProd cexRowsC2 [⟨"a", some (1 / 2)⟩, ⟨"b", some (1 / 2)⟩] ∧
    IsTopProd cexRowsC2 [⟨"b", some (1 / 2)⟩, ⟨"a", some (1 / 2)⟩] := by
  refine ⟨?_, ?_, ?_, ?_⟩
  · rintro df out ⟨s, ⟨_, hsort⟩, rfl⟩
    exact List.Pairwise.sublist (List.take_sublist 10 s) hsort
  · intro df
    exact ⟨List.insertionSort rentDesc (grouped df),
      ⟨List.perm_insertionSort rentDesc (grouped df),
       List.sorted_insertionSort rentDesc (grouped df)⟩, rfl⟩
  · refine ⟨[⟨"a", some (1 / 2)⟩, ⟨"b", some (1 / 2)⟩], ⟨?_, ?_⟩, rfl⟩
    · rw [grouped_cexRowsC2]
    · norm_num [List.pairwise_cons, rentDesc, rentGE]
  · refine ⟨[⟨"b", some (1 / 2)⟩, ⟨"a", some (1 / 2)⟩], ⟨?_, ?_⟩, rfl⟩
    · rw [grouped_cexRowsC2]
      exact List.Perm.swap _ _ _
    · norm_num [List.pairwise_cons, rentDesc, rentGE]

/-- C2 amended witness: the executable ranking of the sample satisfies
the contract and is ordered descending. -/
theorem C2_amended_sort_contract_witness :
    (top_prod cexRowsC2).Pairwise rentDesc :=
  C2_amended_sort_contract.1 cexRowsC2 (top_prod cexRowsC2)
    (C2_amended_sort_contract.2.1 cexRowsC2)

/-- C3 counterexample: with only PG_HOST absent the required key PG_HOST
is missing, yet startup succeeds with the text None silently defaulted
into the host position; and with every key absent startup does halt, but
with the ValueError of the port parser, a message that enumerates no
missing key names. -/
theorem C3_counterexample :
    missingRequired envNoHost = ["PG_HOST"] ∧
    startup envNoHost = Except.ok "postgresql+psycopg2://v:v@None:5432/v" ∧
    missingRequired emptyEnv = ["PG_HOST", "PG_PORT", "PG_DB", "PG_USER", "PG_PWD"] ∧
    startup emptyEnv
      = Except.error "ValueError: invalid literal for int() with base 10: None" := by
  refine ⟨by decide, ?_, by decide, ?_⟩ <;> rfl

/-- C3 amended: no startup code enumerates missing keys.  Each absent key
is interpolated as the text None into the URL; startup then proceeds
whenever the port text parses as an integer, silently defaulting the
other missing keys, and halts only when the port segment is not an
integer literal, with the ValueError of the URL parser naming the bad
port text rather than any missing key. -/
theorem C3_amended_no_enumeration (env env2 : Env)
    (hp : env "PG_PORT" = none) (h2 : pyIntOk (pyStr (env2 "PG_PORT")) = true) :
    startup env = Except.error "ValueError: invalid literal for int() with base 10: None" ∧
    startup env2 = Except.ok (DB_URL env2) := by
  constructor
  · rw [startup, hp]
    rfl
  · rw [startup, if_pos h2]

/-- C3 amended witness at the empty environment and the host-missing
environment. -/
theorem C3_amended_no_enumeration_witness :
    startup emptyEnv
      = Except.error "ValueError: invalid literal for int() with base 10: None" ∧
    startup envNoHost = Except.ok "postgresql+psycopg2://v:v@None:5432/v" := by
  have h := C3_amended_no_enumeration emptyEnv envNoHost rfl (by decide)
  refine ⟨h.1, ?_⟩
  rw [h.2]
  rfl

/-- C4 counterexample: a transient OperationalError is not caught by
load_df, which handles only ProgrammingError, so the two kinds of database
failure do not share one report-and-halt path. -/
theorem C4_counterexample :
    renderCycle (QueryOutcome.operationalError "connection timed out")
      = RenderResult.uncaught "connection timed out" ∧
    renderCycle (QueryOutcome.programmingError "syntax error at or near")
      = RenderResult.stoppedWithError ("Erro na consulta SQL: " ++ "syntax error at or near") :=
  ⟨rfl, rfl⟩

/-- C4 amended: a ProgrammingError raised by the query is reported through
st.error with the error text appended to the prefix and the cycle halts
with no dashboard produced, while any other database error, such as a
transient OperationalError, propagates uncaught instead of taking that
report path. -/
theorem C4_amended_only_programming_caught (e : String) :
    renderCycle (QueryOutcome.programmingError e)
      = RenderResult.stoppedWithError ("Erro na consulta SQL: " ++ e) ∧
    renderCycle (QueryOutcome.operationalError e) = RenderResult.uncaught e :=
  ⟨rfl, rfl⟩

/-- C5 counterexample: an environment lacking only PG_PORT formats the
text None, not 5432, into the port position of the URL, and the default
quotes table identifier is the pre-quoted name with a cedilla, which
differs from orcamentos_anon. -/
theorem C5_counterexample :
    DB_URL envNoPort = "postgresql+psycopg2://v:v@v:None/v" ∧
    ORC_TABLE emptyEnv = "\"orçamentos_anon\"" ∧
    ORC_TABLE emptyEnv ≠ "orcamentos_anon" :=
  ⟨rfl, rfl, by decide⟩

/-- C5 amended: PG_SCHEMA defaults to csv; PG_TBL_ORC defaults to the
already double-quoted identifier with a cedilla; PG_PORT has no default at
all, and an absent PG_PORT is interpolated as the text None. -/
theorem C5_amended_defaults (env : Env) (hs : env "PG_SCHEMA" = none)
    (ht : env "PG_TBL_ORC" = none) (hp : env "PG_PORT" = none) :
    SCHEMA env = "csv" ∧ ORC_TABLE env = "\"orçamentos_anon\"" ∧
    pyStr (env "PG_PORT") = "None" := by
  refine ⟨?_, ?_, ?_⟩ <;> simp [SCHEMA, ORC_TABLE, getenvD, pyStr, hs, ht, hp]

/-- C5 witness at the empty environment. -/
theorem C5_amended_defaults_witness :
    SCHEMA emptyEnv = "csv" ∧ ORC_TABLE emptyEnv = "\"orçamentos_anon\"" ∧
    pyStr (emptyEnv "PG_PORT") = "None" :=
  C5_amended_defaults emptyEnv rfl rfl rfl

/-- C6: with empty selections, the estados and filiais parameters bound
into the main query equal the full distinct lists of the dimension query,
and the clause still constrains the query: a row with a null estado, or
with an estado outside the known list, is excluded. -/
theorem C6_empty_selection_binds_full_list (dim : List DimRow) (selE selF : List String)
    (hE : selE = []) (hF : selF = []) (ai af : Int) (ms : List Int) :
    (mkParams ai af ms selE selF dim).estados = uniqueVals (dim.map DimRow.estado) ∧
    (mkParams ai af ms selE selF dim).filiais = uniqueVals (dim.map DimRow.filial) ∧
    (∀ r : Row, r.estado = none → whereClause (mkParams ai af ms selE selF dim) r = false) ∧
    (∀ r : Row, ∀ e : String, r.estado = some e →
      e ∉ uniqueVals (dim.map DimRow.estado) →
      whereClause (mkParams ai af ms selE selF dim) r = false) := by
  subst hE hF
  refine ⟨by simp [mkParams, effectiveEstados], by simp [mkParams, effectiveFiliais],
    fun r hr => ?_, fun r e hr he => ?_⟩
  · simp [whereClause, hr]
  · simp [whereClause, hr, mkParams, effectiveEstados, he]

/-- C6 witness at a concrete dimension table and a null-estado row. -/
theorem C6_empty_selection_binds_full_list_witness :
    (mkParams 2023 2024 [1] [] [] dim0).estados = ["SP", "RJ"] ∧
    whereClause (mkParams 2023 2024 [1] [] [] dim0) rowNullEstado = false := by
  have h := C6_empty_selection_binds_full_list dim0 [] [] rfl rfl 2023 2024 [1]
  exact ⟨h.1.trans (by decide), h.2.2.1 rowNullEstado rfl⟩

/-- C7: overall profitability percent equals revenue minus cost over
revenue times one hundred when total revenue is nonzero, and is exactly
zero when total revenue is zero, whatever the total cost is, negative
cost included. -/
theorem C7_rent_pct_zero_guard (df : List Row) :
    (receita_total df = 0 → rent_pct df = 0) ∧
    (receita_total df ≠ 0 →
      rent_pct df = (receita_total df - custo_total df) / receita_total df * 100) := by
  constructor
  · intro h
    simp [rent_pct, h]
  · intro h
    simp [rent_pct, h]

/-- C7 witness: a zero-revenue table with negative cost yields exactly
zero, and a table with revenue one hundred and cost forty yields sixty. -/
theorem C7_rent_pct_zero_guard_witness :
    rent_pct dfZeroRev = 0 ∧ rent_pct dfPos = 60 := by
  constructor
  · exact (C7_rent_pct_zero_guard dfZeroRev).1 (by norm_num [receita_total, dfZeroRev, mkRow])
  · have h := (C7_rent_pct_zero_guard dfPos).2 (by norm_num [receita_total, dfPos, mkRow])
    rw [h]
    norm_num [receita_total, custo_total, dfPos, mkRow]

/-- C8: each funnel stage is the distinct count of the non-null values of
its own column of the filtered fact table, and a row whose left joins
matched nothing changes neither the order count nor the invoice count, so
nulls are never counted as a literal value. -/
theorem C8_funnel_counts_drop_null (df : List Row) (r : Row)
    (hp : r.nro_pedido = none) (hn : r.nro_nota = none) :
    qtd_ped (r :: df) = qtd_ped df ∧ qtd_nf (r :: df) = qtd_nf df ∧
    qtd_orc df = (uniqueList (df.filterMap Row.nro_orcamento)).length ∧
    qtd_ped df = (uniqueList (df.filterMap Row.nro_pedido)).length ∧
    qtd_nf df = (uniqueList (df.filterMap Row.nro_nota)).length := by
  refine ⟨?_, ?_, ?_, ?_, ?_⟩
  · simp [qtd_ped, nunique, uniqueVals, hp]
  · simp [qtd_nf, nunique, uniqueVals, hn]
  · simp [qtd_orc, nunique, uniqueVals, List.filterMap_map, Function.comp]
  · simp [qtd_ped, nunique, uniqueVals, List.filterMap_map, Function.comp]
  · simp [qtd_nf, nunique, uniqueVals, List.filterMap_map, Function.comp]

/-- C8 witness at a concrete funnel table. -/
theorem C8_funnel_counts_drop_null_witness :
    qtd_ped (rowNoMatch :: dfFunnel) = qtd_ped dfFunnel ∧
    qtd_nf (rowNoMatch :: dfFunnel) = qtd_nf dfFunnel ∧
    qtd_orc dfFunnel = 2 ∧ qtd_ped dfFunnel = 1 ∧ qtd_nf dfFunnel = 1 := by
  have h := C8_funnel_counts_drop_null dfFunnel rowNoMatch rfl rfl
  exact ⟨h.1, h.2.1, h.2.2.1.trans (by decide), h.2.2.2.1.trans (by decide),
    h.2.2.2.2.trans (by decide)⟩

/-- C9: at the failing input, the empty filtered fact table, the distinct
quote count is zero and the unguarded division of line 142 raises
ZeroDivisionError, crashing the render instead of reporting a missing or
zero average ticket. -/
theorem C9_ticket_medio_raises_on_empty :
    qtd_orc ([] : List Row) = 0 ∧
    ticket_medio ([] : List Row) = Except.error "ZeroDivisionError" ∧
    renderCycle (QueryOutcome.ok []) = RenderResult.uncaught "ZeroDivisionError" :=
  ⟨rfl, rfl, rfl⟩

/-- C10: the month selection is bound into the main query exactly as
selected, with no fallback to all known values; an empty month selection
therefore yields an empty fact table, unlike the estados dimension, whose
empty selection falls back to the full distinct list. -/
theorem C10_empty_months_no_fallback (ai af : Int) (selE selF : List String)
    (dim : List DimRow) (joined : List Row) :
    (mkParams ai af [] selE selF dim).meses = [] ∧
    mainQuery joined (mkParams ai af [] selE selF dim) = [] ∧
    (∀ ms : List Int, (mkParams ai af ms selE selF dim).meses = ms) ∧
    effectiveEstados [] dim = uniqueVals (dim.map DimRow.estado) := by
  refine ⟨rfl, ?_, fun ms => rfl, by simp [effectiveEstados]⟩
  simp [mainQuery, whereClause, mkParams]

end FechaAI
